import Mathlib

/-!
Verification development for the preschool reading application.

The embedding covers the two modules the claims are about:

* `config.py` — static lookup tables (`READING_LEVELS`, `PHONICS_SEQUENCE`,
  `CHILD_PROFILES`) and the three lookup functions `get_child_profile`,
  `get_appropriate_sight_words`, `get_next_phonics_sound`.
* `database.py` — the `LearningDatabase` CRUD wrapper over five sqlite
  tables.  Tables are modelled as Lean lists of row structures; sqlite
  `TEXT` columns that hold a JSON-encoded array of strings (`interests`,
  `lesson_steps`, `target_skills`, …) are modelled by the decoded
  `List String` value itself, since the code always writes `json.dumps`
  of a list of strings and reads it back with `json.loads`.
  `TIMESTAMP DEFAULT CURRENT_TIMESTAMP` columns are modelled by a `Nat`
  clock value passed explicitly to each operation.  `AUTOINCREMENT` ids
  are modelled as `length + 1`, which coincides with sqlite's behaviour
  because the wrapper never deletes rows.
* the module-level startup code of `preschool_voice_agent.py`
  (import guard and API-key guard).
-/

/-! ## config.py: data -/

/-- The `progress` sub-dictionary of a child profile in `config.py`. -/
structure Progress where
  words_learned : Nat
  books_completed : Nat
  current_phonics : String
  last_session : Option String
deriving DecidableEq

/-- A value of the `CHILD_PROFILES` dictionary in `config.py`. -/
structure ChildProfile where
  age : Nat
  level : String
  interests : List String
  learning_style : String
  progress : Progress
deriving DecidableEq

/-- A value of the `READING_LEVELS` dictionary in `config.py`. -/
structure LevelData where
  age_range : String
  skills : List String
  sight_words : List String
deriving DecidableEq

/-- `READING_LEVELS` from `config.py`, as an association list
(Python dicts with string keys become association lists). -/
def READING_LEVELS : List (String × LevelData) :=
  [("Pre-Reader",
    { age_range := "3-4 years",
      skills := ["letter recognition", "phonemic awareness", "print concepts"],
      sight_words := ["I", "me", "my", "you", "the", "a"] }),
   ("Beginning Reader",
    { age_range := "4-5 years",
      skills := ["letter sounds", "simple words", "basic phonics"],
      sight_words := ["and", "to", "said", "you", "of", "we", "my", "be", "have", "from"] }),
   ("Early Reader",
    { age_range := "5-6 years",
      skills := ["word families", "simple sentences", "reading fluency"],
      sight_words := ["they", "know", "want", "been", "good", "much", "some", "time", "very", "when"] }),
   ("Developing Reader",
    { age_range := "6-7 years",
      skills := ["complex words", "reading comprehension", "story structure"],
      sight_words := ["would", "there", "each", "which", "their", "called", "first", "water", "after", "back"] })]

/-- `PHONICS_SEQUENCE` from `config.py`. -/
def PHONICS_SEQUENCE : List String :=
  ["m", "s", "t", "a", "n", "p", "i", "c", "k", "e", "r", "d",
   "h", "u", "l", "f", "b", "j", "o", "g", "w", "v", "x", "y", "z", "q",
   "bl", "br", "cl", "cr", "dr", "fl", "fr", "gl", "gr", "pl", "pr", "sl",
   "sm", "sn", "sp", "st", "sw", "tr",
   "ai", "ay", "ea", "ee", "ey", "ie", "oa", "oe", "oo", "ou", "ow", "ue", "ui"]

/-- `CHILD_PROFILES` from `config.py`. -/
def CHILD_PROFILES : List (String × ChildProfile) :=
  [("Emma",
    { age := 4, level := "Beginning Reader",
      interests := ["animals", "stories", "colors"],
      learning_style := "visual",
      progress := { words_learned := 45, books_completed := 8,
                    current_phonics := "b", last_session := some "2024-01-15" } }),
   ("Liam",
    { age := 5, level := "Early Reader",
      interests := ["dinosaurs", "cars", "adventure"],
      learning_style := "kinesthetic",
      progress := { words_learned := 78, books_completed := 15,
                    current_phonics := "tr", last_session := some "2024-01-16" } }),
   ("Sophia",
    { age := 6, level := "Developing Reader",
      interests := ["fairy tales", "friendship", "art"],
      learning_style := "auditory",
      progress := { words_learned := 120, books_completed := 22,
                    current_phonics := "oa", last_session := some "2024-01-17" } })]

/-! ## config.py: functions -/

/-- The hard-coded default returned by `get_child_profile` for an
unknown name. -/
def defaultChildProfile : ChildProfile :=
  { age := 4, level := "Beginning Reader",
    interests := ["learning", "stories"],
    learning_style := "visual",
    progress := { words_learned := 0, books_completed := 0,
                  current_phonics := "m", last_session := none } }

/-- `get_child_profile` from `config.py`: `CHILD_PROFILES.get(name, default)`. -/
def get_child_profile (name : String) : ChildProfile :=
  (CHILD_PROFILES.lookup name).getD defaultChildProfile

/-- `get_appropriate_sight_words` from `config.py`:
`READING_LEVELS.get(level, READING_LEVELS["Beginning Reader"])["sight_words"]`.
The inner `getD` default is never used because the key
`"Beginning Reader"` is present in `READING_LEVELS`. -/
def get_appropriate_sight_words (level : String) : List String :=
  ((READING_LEVELS.lookup level).getD
    ((READING_LEVELS.lookup "Beginning Reader").getD
      { age_range := "", skills := [], sight_words := [] })).sight_words

/-- Python's `list.index`, returning `none` where Python raises
`ValueError` (element absent), otherwise the first index of the element. -/
def pyIndex (x : String) : List String → Option Nat
  | [] => none
  | y :: ys => if y == x then some 0 else (pyIndex x ys).map (· + 1)

/-- `get_next_phonics_sound` from `config.py`: look up the current
sound's index; if it is not the last index return the next element,
on the last element return the sound itself, and on a `ValueError`
(sound absent) return `PHONICS_SEQUENCE[0]`. -/
def get_next_phonics_sound (current_sound : String) : String :=
  match pyIndex current_sound PHONICS_SEQUENCE with
  | some current_index =>
      if current_index < PHONICS_SEQUENCE.length - 1 then
        PHONICS_SEQUENCE.getD (current_index + 1) current_sound
      else
        current_sound
  | none => PHONICS_SEQUENCE.getD 0 ""

/-! ## Helper lemmas about `pyIndex` and `List.getD` -/

theorem pyIndex_eq_none_iff {x : String} {l : List String} :
    pyIndex x l = none ↔ x ∉ l := by
  induction l with
  | nil => simp [pyIndex]
  | cons y ys ih =>
    by_cases h : (y == x)
    · have hxy : y = x := eq_of_beq h
      subst hxy
      simp [pyIndex]
    · have hne : x ≠ y := by
        intro he
        subst he
        exact h (beq_self_eq_true x)
      simp only [pyIndex, if_neg h, Option.map_eq_none', ih, List.mem_cons]
      constructor
      · rintro hx (he | hm)
        · exact hne he
        · exact hx hm
      · intro hx hm
        exact hx (Or.inr hm)

theorem pyIndex_eq_some {x : String} {l : List String} {i : Nat}
    (h : pyIndex x l = some i) : i < l.length ∧ l.getD i "" = x := by
  induction l generalizing i with
  | nil => simp [pyIndex] at h
  | cons y ys ih =>
    by_cases hy : (y == x)
    · simp only [pyIndex, if_pos hy, Option.some.injEq] at h
      subst h
      exact ⟨Nat.succ_pos _, eq_of_beq hy⟩
    · simp only [pyIndex, if_neg hy, Option.map_eq_some'] at h
      obtain ⟨j, hj, rfl⟩ := h
      obtain ⟨hlt, hget⟩ := ih hj
      exact ⟨Nat.succ_lt_succ hlt, hget⟩

theorem getD_mem_of_lt {α : Type} {l : List α} {i : Nat} {d : α}
    (h : i < l.length) : l.getD i d ∈ l := by
  induction l generalizing i with
  | nil => simp at h
  | cons y ys ih =>
    cases i with
    | zero => simp
    | succ j =>
      simp only [List.getD_cons_succ]
      exact List.mem_cons_of_mem _ (ih (Nat.lt_of_succ_lt_succ h))

/-! ## database.py: rows of the five tables

Column-to-field correspondence follows the `CREATE TABLE` statements in
`init_database`.  JSON-array `TEXT` columns are modelled by the decoded
list of strings; `TIMESTAMP` columns by a `Nat`. -/

/-- A row of the `student_profiles` table. -/
structure StudentProfileRow where
  id : Nat
  name : String
  age : Int
  interests : List String
  learning_style : String
  current_level : String
  created_at : Nat
  updated_at : Nat
deriving DecidableEq

/-- A row of the `learning_sessions` table. -/
structure LearningSessionRow where
  id : Nat
  student_name : String
  lesson_topic : String
  agent_used : String
  conversation_summary : String
  learning_effectiveness : Int
  notes : String
  session_date : Nat
deriving DecidableEq

/-- A row of the `lesson_plans` table. -/
structure LessonPlanRow where
  id : Nat
  student_name : String
  learning_objective : String
  lesson_steps : List String
  target_skills : List String
  personalization_notes : String
  created_at : Nat
  status : String
deriving DecidableEq

/-- A row of the `accomplishments` table. -/
structure AccomplishmentRow where
  id : Nat
  student_name : String
  achievement : String
  skill_category : String
  date_achieved : Nat
  confidence_level : Int
deriving DecidableEq

/-- A row of the `learning_analytics` table. -/
structure AnalyticsRow where
  id : Nat
  student_name : String
  preferred_teaching_style : String
  effective_strategies : List String
  challenging_areas : List String
  motivation_triggers : List String
  updated_at : Nat
deriving DecidableEq

/-! ## database.py: schema initialisation (claim C7)

`DB` models the on-disk database file: each of the five tables either
does not exist yet (`none`) or exists with its stored rows (`some rows`).
These five fields are exactly the five `CREATE TABLE IF NOT EXISTS`
statements issued by `init_database`. -/

/-- The on-disk database: five tables, each possibly not yet created. -/
structure DB where
  student_profiles : Option (List StudentProfileRow)
  learning_sessions : Option (List LearningSessionRow)
  lesson_plans : Option (List LessonPlanRow)
  accomplishments : Option (List AccomplishmentRow)
  learning_analytics : Option (List AnalyticsRow)
deriving DecidableEq

/-- sqlite `CREATE TABLE IF NOT EXISTS`: a missing table becomes an
empty table, an existing table (with its rows) is left unchanged. -/
def createTableIfNotExists {α : Type} (t : Option (List α)) : Option (List α) :=
  some (t.getD [])

/-- `LearningDatabase.init_database`: issues the five
`CREATE TABLE IF NOT EXISTS` statements and commits. -/
def init_database (d : DB) : DB :=
  { student_profiles := createTableIfNotExists d.student_profiles,
    learning_sessions := createTableIfNotExists d.learning_sessions,
    lesson_plans := createTableIfNotExists d.lesson_plans,
    accomplishments := createTableIfNotExists d.accomplishments,
    learning_analytics := createTableIfNotExists d.learning_analytics }

/-- `LearningDatabase.__init__`: stores the path and runs `init_database`
on whatever database file is found there. -/
def LearningDatabase_construct (onDisk : DB) : DB :=
  init_database onDisk

/-- All five tables exist. -/
def tablesExist (d : DB) : Prop :=
  d.student_profiles.isSome ∧ d.learning_sessions.isSome ∧
  d.lesson_plans.isSome ∧ d.accomplishments.isSome ∧
  d.learning_analytics.isSome

/-! ## database.py: runtime state and operations

Every `LearningDatabase` method runs after `__init__` has created the
tables, so the runtime operations are modelled on `InitDB`, the state in
which the five tables exist. -/

/-- The database state with all five tables created. -/
structure InitDB where
  student_profiles : List StudentProfileRow
  learning_sessions : List LearningSessionRow
  lesson_plans : List LessonPlanRow
  accomplishments : List AccomplishmentRow
  learning_analytics : List AnalyticsRow
deriving DecidableEq

/-- A freshly initialised database (all tables empty). -/
def emptyInitDB : InitDB :=
  { student_profiles := [], learning_sessions := [], lesson_plans := [],
    accomplishments := [], learning_analytics := [] }

/-- sqlite `INSERT` into `student_profiles`: the schema declares
`name TEXT UNIQUE NOT NULL`, so inserting a row whose name is already
present fails with an `IntegrityError` instead of storing a duplicate. -/
def sqliteInsertProfile (rows : List StudentProfileRow) (r : StudentProfileRow) :
    Except String (List StudentProfileRow) :=
  if rows.any (fun q => q.name == r.name) then
    Except.error "UNIQUE constraint failed: student_profiles.name"
  else
    Except.ok (rows ++ [r])

/-! ### Descending sort (sqlite `ORDER BY ... DESC`) -/

/-- Insert `x` into a list sorted by descending `key`. -/
def insertDescBy {α : Type} (key : α → Nat) (x : α) : List α → List α
  | [] => [x]
  | y :: ys => if key x ≤ key y then y :: insertDescBy key x ys else x :: y :: ys

/-- Sort a list by descending `key` (models `ORDER BY key DESC`). -/
def sortDescBy {α : Type} (key : α → Nat) : List α → List α
  | [] => []
  | x :: xs => insertDescBy key x (sortDescBy key xs)

theorem mem_insertDescBy {α : Type} {key : α → Nat} {x a : α} {l : List α} :
    a ∈ insertDescBy key x l ↔ a = x ∨ a ∈ l := by
  induction l with
  | nil => simp [insertDescBy]
  | cons y ys ih =>
    by_cases hc : key x ≤ key y
    · simp only [insertDescBy, if_pos hc, List.mem_cons, ih]
      tauto
    · simp only [insertDescBy, if_neg hc, List.mem_cons]

theorem pairwise_insertDescBy {α : Type} {key : α → Nat} {x : α} {l : List α}
    (h : l.Pairwise (fun a b => key b ≤ key a)) :
    (insertDescBy key x l).Pairwise (fun a b => key b ≤ key a) := by
  induction l with
  | nil => simp [insertDescBy]
  | cons y ys ih =>
    rw [List.pairwise_cons] at h
    obtain ⟨hy, hys⟩ := h
    by_cases hc : key x ≤ key y
    · simp only [insertDescBy, if_pos hc]
      rw [List.pairwise_cons]
      refine ⟨?_, ih hys⟩
      intro b hb
      rcases mem_insertDescBy.mp hb with rfl | hb'
      · exact hc
      · exact hy b hb'
    · simp only [insertDescBy, if_neg hc]
      rw [List.pairwise_cons]
      refine ⟨?_, List.pairwise_cons.mpr ⟨hy, hys⟩⟩
      intro b hb
      rcases List.mem_cons.mp hb with rfl | hb'
      · exact Nat.le_of_lt (Nat.lt_of_not_le hc)
      · exact Nat.le_trans (hy b hb') (Nat.le_of_lt (Nat.lt_of_not_le hc))

theorem pairwise_sortDescBy {α : Type} (key : α → Nat) (l : List α) :
    (sortDescBy key l).Pairwise (fun a b => key b ≤ key a) := by
  induction l with
  | nil => simp [sortDescBy]
  | cons x xs ih => exact pairwise_insertDescBy ih

/-! ### `get_student_profile` and its return value -/

/-- The analytics keys merged into the profile dictionary when a
`learning_analytics` row is found. -/
structure AnalyticsInfo where
  preferred_teaching_style : String
  effective_strategies : List String
  challenging_areas : List String
  motivation_triggers : List String
deriving DecidableEq

/-- An entry of the `recent_accomplishments` list of a profile. -/
structure AccEntry where
  achievement : String
  skill_category : String
  date : Nat
  confidence : Int
deriving DecidableEq

/-- The dictionary returned by `get_student_profile`.  The analytics
keys are present only when an analytics row was found (`Option`). -/
structure ProfileData where
  name : String
  age : Int
  interests : List String
  learning_style : String
  current_level : String
  analytics : Option AnalyticsInfo
  recent_accomplishments : List AccEntry
deriving DecidableEq

/-- `LearningDatabase.get_student_profile`:  select the profile row by
name; if absent, insert the default profile (age 4, interests
`['learning', 'stories']`, style `'visual'`, level `'beginner'`) and use
the default values; then merge the newest analytics row and the five
most recent accomplishments.  Returns the profile dictionary and the
(possibly updated) database state. -/
def get_student_profile (db : InitDB) (name : String) (now : Nat) :
    ProfileData × InitDB :=
  let found := db.student_profiles.find? (fun r => r.name == name)
  let base_db :=
    match found with
    | none =>
      let row : StudentProfileRow :=
        { id := db.student_profiles.length + 1, name := name, age := 4,
          interests := ["learning", "stories"], learning_style := "visual",
          current_level := "beginner", created_at := now, updated_at := now }
      let rows :=
        match sqliteInsertProfile db.student_profiles row with
        | Except.ok rs => rs
        | Except.error _ => db.student_profiles
      (({ name := name, age := 4, interests := ["learning", "stories"],
          learning_style := "visual", current_level := "beginner",
          analytics := none, recent_accomplishments := [] } : ProfileData),
       { db with student_profiles := rows })
    | some p =>
      (({ name := p.name, age := p.age, interests := p.interests,
          learning_style := p.learning_style, current_level := p.current_level,
          analytics := none, recent_accomplishments := [] } : ProfileData),
       db)
  let db' := base_db.2
  let analytics :=
    (sortDescBy (fun a => a.updated_at)
      (db'.learning_analytics.filter (fun a => a.student_name == name))).head?
  let accs :=
    (sortDescBy (fun a => a.date_achieved)
      (db'.accomplishments.filter (fun a => a.student_name == name))).take 5
  ({ base_db.1 with
      analytics := analytics.map (fun a =>
        { preferred_teaching_style := a.preferred_teaching_style,
          effective_strategies := a.effective_strategies,
          challenging_areas := a.challenging_areas,
          motivation_triggers := a.motivation_triggers }),
      recent_accomplishments := accs.map (fun a =>
        { achievement := a.achievement, skill_category := a.skill_category,
          date := a.date_achieved, confidence := a.confidence_level }) },
   db')

/-- The updates dictionary accepted by `update_student_profile`;
`none` models an absent key. -/
structure ProfileUpdates where
  age : Option Int
  interests : Option (List String)
  learning_style : Option String
  current_level : Option String
  preferred_teaching_style : Option String
  effective_strategies : Option (List String)
  challenging_areas : Option (List String)
  motivation_triggers : Option (List String)
deriving DecidableEq

/-- `LearningDatabase.update_student_profile`: update the profile row
(matching on name) with whichever basic keys are present, and update or
insert the analytics row with whichever analytics keys are present. -/
def update_student_profile (db : InitDB) (name : String) (u : ProfileUpdates)
    (now : Nat) : InitDB :=
  let profiles :=
    if u.age.isSome || u.interests.isSome || u.learning_style.isSome ||
        u.current_level.isSome then
      db.student_profiles.map (fun r =>
        if r.name == name then
          { r with age := u.age.getD r.age,
                   interests := u.interests.getD r.interests,
                   learning_style := u.learning_style.getD r.learning_style,
                   current_level := u.current_level.getD r.current_level,
                   updated_at := now }
        else r)
    else db.student_profiles
  let analytics :=
    if u.preferred_teaching_style.isSome || u.effective_strategies.isSome ||
        u.challenging_areas.isSome || u.motivation_triggers.isSome then
      if db.learning_analytics.any (fun a => a.student_name == name) then
        db.learning_analytics.map (fun a =>
          if a.student_name == name then
            { a with
                preferred_teaching_style :=
                  u.preferred_teaching_style.getD a.preferred_teaching_style,
                effective_strategies :=
                  u.effective_strategies.getD a.effective_strategies,
                challenging_areas :=
                  u.challenging_areas.getD a.challenging_areas,
                motivation_triggers :=
                  u.motivation_triggers.getD a.motivation_triggers,
                updated_at := now }
          else a)
      else
        db.learning_analytics ++
          [{ id := db.learning_analytics.length + 1, student_name := name,
             preferred_teaching_style := u.preferred_teaching_style.getD "",
             effective_strategies := u.effective_strategies.getD [],
             challenging_areas := u.challenging_areas.getD [],
             motivation_triggers := u.motivation_triggers.getD [],
             updated_at := now }]
    else db.learning_analytics
  { db with student_profiles := profiles, learning_analytics := analytics }

/-! ### Insertion operations -/

/-- `LearningDatabase.add_learning_session`: unconditionally insert a
row into `learning_sessions`; the effectiveness argument is stored
verbatim, with no range check. -/
def add_learning_session (db : InitDB) (student_name lesson_topic agent_used
    conversation_summary : String) (effectiveness : Int) (notes : String)
    (now : Nat) : InitDB :=
  { db with learning_sessions := db.learning_sessions ++
      [{ id := db.learning_sessions.length + 1, student_name := student_name,
         lesson_topic := lesson_topic, agent_used := agent_used,
         conversation_summary := conversation_summary,
         learning_effectiveness := effectiveness, notes := notes,
         session_date := now }] }

/-- `LearningDatabase.add_accomplishment`: unconditionally insert a row
into `accomplishments`. -/
def add_accomplishment (db : InitDB) (student_name achievement
    skill_category : String) (confidence_level : Int) (now : Nat) : InitDB :=
  { db with accomplishments := db.accomplishments ++
      [{ id := db.accomplishments.length + 1, student_name := student_name,
         achievement := achievement, skill_category := skill_category,
         date_achieved := now, confidence_level := confidence_level }] }

/-- `LearningDatabase.create_lesson_plan`: insert a row into
`lesson_plans`; the `status` column is not listed in the `INSERT`, so it
takes the schema default `'pending'`.  Returns `cursor.lastrowid` and
the new state. -/
def create_lesson_plan (db : InitDB) (student_name learning_objective : String)
    (lesson_steps target_skills : List String) (personalization_notes : String)
    (now : Nat) : Nat × InitDB :=
  let plan_id := db.lesson_plans.length + 1
  (plan_id,
   { db with lesson_plans := db.lesson_plans ++
       [{ id := plan_id, student_name := student_name,
          learning_objective := learning_objective,
          lesson_steps := lesson_steps, target_skills := target_skills,
          personalization_notes := personalization_notes,
          created_at := now, status := "pending" }] })

/-- `LearningDatabase.update_lesson_plan_status`:
`UPDATE lesson_plans SET status = ? WHERE id = ?` — the status argument
is written verbatim, with no membership check. -/
def update_lesson_plan_status (db : InitDB) (plan_id : Nat) (status : String) :
    InitDB :=
  { db with lesson_plans := db.lesson_plans.map (fun p =>
      if p.id == plan_id then { p with status := status } else p) }

/-! ### `get_parent_dashboard` -/

/-- An entry of the `recent_sessions` list of the dashboard. -/
structure SessionEntry where
  topic : String
  agent : String
  effectiveness : Int
  date : Nat
  notes : String
deriving DecidableEq

/-- An entry of the `skill_progress` list of the dashboard.  The
floating-point `AVG(confidence_level)` column (rounded with
`round(_, 1)`) is outside the embedding; the category and count are
modelled. -/
structure SkillProgressEntry where
  category : String
  achievements_count : Nat
deriving DecidableEq

/-- The dictionary returned by `get_parent_dashboard`. -/
structure DashboardData where
  student_name : String
  profile : ProfileData
  recent_sessions : List SessionEntry
  skill_progress : List SkillProgressEntry
deriving DecidableEq

/-- `LearningDatabase.get_parent_dashboard`: fetch the profile (which
may insert a default row), the ten most recent sessions
(`ORDER BY session_date DESC LIMIT 10`) and the per-category
accomplishment counts (`GROUP BY skill_category`). -/
def get_parent_dashboard (db : InitDB) (student_name : String) (now : Nat) :
    DashboardData × InitDB :=
  let pr := get_student_profile db student_name now
  let db' := pr.2
  let sessions :=
    (sortDescBy (fun s => s.session_date)
      (db'.learning_sessions.filter (fun s => s.student_name == student_name))).take 10
  let myAccs := db'.accomplishments.filter (fun a => a.student_name == student_name)
  let categories := (myAccs.map (fun a => a.skill_category)).dedup
  ({ student_name := student_name,
     profile := pr.1,
     recent_sessions := sessions.map (fun s =>
       { topic := s.lesson_topic, agent := s.agent_used,
         effectiveness := s.learning_effectiveness, date := s.session_date,
         notes := s.notes }),
     skill_progress := categories.map (fun c =>
       { category := c,
         achievements_count :=
           (myAccs.filter (fun a => a.skill_category == c)).length }) },
   db')

/-! ## preschool_voice_agent.py: module-level startup -/

/-- Python truthiness of an `os.getenv` result: `None` (variable unset)
and the empty string are falsy, every other string is truthy. -/
def envTruthy : Option String → Bool
  | none => false
  | some s => !s.isEmpty

/-- The module-level startup of `preschool_voice_agent.py`: `exit(1)`
when the guarded imports raise `ImportError`, then (after
`load_dotenv()`) `exit(1)` when `not os.getenv("OPENAI_API_KEY")`.
`openai_api_key` is the value of `OPENAI_API_KEY` in the environment
after the `.env` file has been loaded.  Returns `true` iff the process
aborts. -/
def startup_aborts (imports_ok : Bool) (openai_api_key : Option String) : Bool :=
  if !imports_ok then true
  else if !(envTruthy openai_api_key) then true
  else false

/-! ## Claim C1 -/

/-- Claim C1: for every lookup with an unknown key, the lookup functions
return a hardcoded default instead of raising an error:
`get_child_profile` on a name not in `CHILD_PROFILES` returns the fixed
default profile; `get_appropriate_sight_words` on a level not in
`READING_LEVELS` returns the `'Beginning Reader'` sight-word list;
`get_next_phonics_sound` on a sound not in `PHONICS_SEQUENCE` returns
the first element of `PHONICS_SEQUENCE`. -/
theorem claim_C1 (name level sound : String)
    (h1 : CHILD_PROFILES.lookup name = none)
    (h2 : READING_LEVELS.lookup level = none)
    (h3 : sound ∉ PHONICS_SEQUENCE) :
    get_child_profile name = defaultChildProfile ∧
    get_appropriate_sight_words level =
      ["and", "to", "said", "you", "of", "we", "my", "be", "have", "from"] ∧
    get_next_phonics_sound sound = PHONICS_SEQUENCE.getD 0 "" := by
  refine ⟨?_, ?_, ?_⟩
  · simp [get_child_profile, h1]
  · simp only [get_appropriate_sight_words, h2, Option.getD_none]
    decide
  · have h : pyIndex sound PHONICS_SEQUENCE = none := pyIndex_eq_none_iff.mpr h3
    simp [get_next_phonics_sound, h]

/-- Witness for claim C1 at the unknown keys `"Zoe"`, `"Expert"`, `"zz"`. -/
theorem claim_C1_witness :
    CHILD_PROFILES.lookup "Zoe" = none ∧
    READING_LEVELS.lookup "Expert" = none ∧
    "zz" ∉ PHONICS_SEQUENCE ∧
    (get_child_profile "Zoe" = defaultChildProfile ∧
     get_appropriate_sight_words "Expert" =
       ["and", "to", "said", "you", "of", "we", "my", "be", "have", "from"] ∧
     get_next_phonics_sound "zz" = PHONICS_SEQUENCE.getD 0 "") :=
  ⟨by decide, by decide, by decide,
   claim_C1 "Zoe" "Expert" "zz" (by decide) (by decide) (by decide)⟩

/-! ## Claim C9 -/

set_option maxRecDepth 40000 in
/-- Claim C9: `get_next_phonics_sound` always returns an element of
`PHONICS_SEQUENCE` for every input string, and the last element of
`PHONICS_SEQUENCE` (which is `"ui"`) is its unique fixed point among
sequence members: for every element other than the last it returns the
immediately following element, and on the last element it returns that
element itself. -/
theorem claim_C9 :
    (∀ s : String, get_next_phonics_sound s ∈ PHONICS_SEQUENCE) ∧
    (∀ i : Nat, i < PHONICS_SEQUENCE.length - 1 →
      get_next_phonics_sound (PHONICS_SEQUENCE.getD i "") =
        PHONICS_SEQUENCE.getD (i + 1) "") ∧
    PHONICS_SEQUENCE.getLast? = some "ui" ∧
    get_next_phonics_sound "ui" = "ui" ∧
    (∀ s ∈ PHONICS_SEQUENCE, get_next_phonics_sound s = s → s = "ui") := by
  refine ⟨?_, by decide, by decide, by decide, by decide⟩
  intro s
  cases h : pyIndex s PHONICS_SEQUENCE with
  | none => simp only [get_next_phonics_sound, h]; decide
  | some i =>
    obtain ⟨hlt, hget⟩ := pyIndex_eq_some h
    simp only [get_next_phonics_sound, h]
    by_cases hi : i < PHONICS_SEQUENCE.length - 1
    · rw [if_pos hi]
      exact getD_mem_of_lt (by omega)
    · rw [if_neg hi]
      exact hget ▸ getD_mem_of_lt hlt

/-- Witness for claim C9: the membership part at the non-member string
`"hello"`, the successor part at index 0, and the fixed-point part at
the last element `"ui"`. -/
theorem claim_C9_witness :
    get_next_phonics_sound "hello" ∈ PHONICS_SEQUENCE ∧
    0 < PHONICS_SEQUENCE.length - 1 ∧
    get_next_phonics_sound (PHONICS_SEQUENCE.getD 0 "") = PHONICS_SEQUENCE.getD 1 "" ∧
    "ui" ∈ PHONICS_SEQUENCE ∧
    "ui" = "ui" :=
  ⟨claim_C9.1 "hello", by decide, claim_C9.2.1 0 (by decide), by decide,
   claim_C9.2.2.2.2 "ui" (by decide) claim_C9.2.2.2.1⟩

/-! ## Claim C2 -/

/-- Counterexample to claim C2 as stated: calling `add_learning_session`
with the out-of-range effectiveness argument `7` on a fresh database
does persist a session row whose stored rating is `7`, which lies
outside 1–5. -/
theorem claim_C2_counterexample :
    ∃ r ∈ (add_learning_session emptyInitDB "Test Student" "phonics"
        "phonics_agent" "summary" 7 "" 0).learning_sessions,
      r.learning_effectiveness = 7 ∧
      ¬(1 ≤ r.learning_effectiveness ∧ r.learning_effectiveness ≤ 5) := by
  decide

/-- Claim C2 (amended): `add_learning_session` performs no range
validation — for every integer argument, including values outside 1–5,
it persists a session row whose stored effectiveness rating is exactly
that argument. -/
theorem claim_C2_amended (db : InitDB)
    (student_name lesson_topic agent_used conversation_summary notes : String)
    (effectiveness : Int) (now : Nat) :
    ∃ r ∈ (add_learning_session db student_name lesson_topic agent_used
        conversation_summary effectiveness notes now).learning_sessions,
      r.student_name = student_name ∧
      r.learning_effectiveness = effectiveness ∧
      r.session_date = now := by
  exact ⟨_, List.mem_append_right _ (List.mem_singleton_self _), rfl, rfl, rfl⟩

/-! ## Claim C3 -/

/-- Counterexample to claim C3 as stated: after creating a lesson plan
and calling `update_lesson_plan_status` with the string `"cancelled"`,
the stored status is `"cancelled"`, which is outside
`{pending, in_progress, completed}`. -/
theorem claim_C3_counterexample :
    ((update_lesson_plan_status
        (create_lesson_plan emptyInitDB "Test" "letters" ["step1"] ["skill1"] "n" 0).2
        (create_lesson_plan emptyInitDB "Test" "letters" ["step1"] ["skill1"] "n" 0).1
        "cancelled").lesson_plans.map (fun p => p.status)) = ["cancelled"] ∧
    "cancelled" ∉ ["pending", "in_progress", "completed"] := by
  decide

/-- Claim C3 (amended): `create_lesson_plan` stores plans with status
`'pending'` (the schema default), but `update_lesson_plan_status`
writes its string argument verbatim with no membership check, so the
stored status of the matched plan becomes whatever string was passed. -/
theorem claim_C3_amended (db : InitDB)
    (student_name learning_objective personalization_notes status : String)
    (lesson_steps target_skills : List String) (now : Nat) (plan_id : Nat) :
    ((create_lesson_plan db student_name learning_objective lesson_steps
        target_skills personalization_notes now).2.lesson_plans.map
          (fun p => p.status)) =
      db.lesson_plans.map (fun p => p.status) ++ ["pending"] ∧
    ((update_lesson_plan_status db plan_id status).lesson_plans.map
        (fun p => p.status)) =
      db.lesson_plans.map (fun p => if p.id == plan_id then status else p.status) := by
  constructor
  · simp [create_lesson_plan]
  · simp only [update_lesson_plan_status, List.map_map]
    have hfun : ((fun p : LessonPlanRow => p.status) ∘ fun p =>
        if p.id == plan_id then { p with status := status } else p) =
        fun p : LessonPlanRow => if p.id == plan_id then status else p.status := by
      funext p
      by_cases h : p.id = plan_id <;> simp [h]
    rw [hfun]

/-! ## Claim C5 -/

/-- Claim C5: no referential integrity is enforced between tables — the
three insertion operations are total and persist a record referencing
the given student name for every database state and every name,
including names with no row in `student_profiles` (the `FOREIGN KEY`
clauses in the schema are not enforced, since sqlite leaves foreign-key
enforcement off by default and the code never issues
`PRAGMA foreign_keys = ON`). -/
theorem claim_C5 (db : InitDB)
    (name topic agent summary notes ach cat obj pn : String)
    (eff conf : Int) (steps skills : List String) (now : Nat) :
    (∃ r ∈ (add_learning_session db name topic agent summary eff notes
        now).learning_sessions, r.student_name = name) ∧
    (∃ r ∈ (add_accomplishment db name ach cat conf now).accomplishments,
      r.student_name = name) ∧
    (∃ r ∈ (create_lesson_plan db name obj steps skills pn now).2.lesson_plans,
      r.student_name = name) := by
  refine ⟨⟨_, List.mem_append_right _ (List.mem_singleton_self _), rfl⟩,
          ⟨_, List.mem_append_right _ (List.mem_singleton_self _), rfl⟩,
          ⟨_, List.mem_append_right _ (List.mem_singleton_self _), rfl⟩⟩

/-! ## Claim C6 -/

/-- Counterexample to claim C6 as stated: the claim says startup aborts
in exactly two cases — failed import or `OPENAI_API_KEY` unset — and
otherwise proceeds; but with imports succeeding and `OPENAI_API_KEY`
set to the empty string (so not unset), the code still aborts, because
`if not os.getenv("OPENAI_API_KEY")` treats the empty string as falsy. -/
theorem claim_C6_counterexample :
    ¬ (∀ (imports_ok : Bool) (key : Option String),
        startup_aborts imports_ok key = (!imports_ok || key.isNone)) := by
  intro h
  have h0 := h true (some "")
  simp [startup_aborts, envTruthy] at h0
  exact absurd h0 (by decide)

/-- Claim C6 (amended): the main program aborts in exactly two startup
failure cases — a required package import fails, or the
`OPENAI_API_KEY` environment variable is unset **or set to the empty
string** after loading the `.env` file; equivalently, startup proceeds
iff the imports succeed and the key is set to a nonempty string. -/
theorem claim_C6_amended (imports_ok : Bool) (key : Option String) :
    startup_aborts imports_ok key = false ↔
      (imports_ok = true ∧ ∃ s, key = some s ∧ s.isEmpty = false) := by
  cases imports_ok <;> cases key <;>
    first
      | (rename_i s
         cases hs : s.isEmpty <;> simp [startup_aborts, envTruthy, hs])
      | simp [startup_aborts, envTruthy]

/-! ## Claim C7 -/

/-- Claim C7: constructing `LearningDatabase` runs `init_database`,
which creates exactly the five tables (the five fields of `DB`) if they
do not exist, and `init_database` is idempotent: running it again on an
already-initialized database leaves the schema and all stored rows
unchanged. -/
theorem claim_C7 (d : DB) :
    LearningDatabase_construct d = init_database d ∧
    init_database (init_database d) = init_database d ∧
    tablesExist (init_database d) ∧
    (∀ rows, d.student_profiles = some rows →
      (init_database d).student_profiles = some rows) ∧
    (∀ rows, d.learning_sessions = some rows →
      (init_database d).learning_sessions = some rows) ∧
    (∀ rows, d.lesson_plans = some rows →
      (init_database d).lesson_plans = some rows) ∧
    (∀ rows, d.accomplishments = some rows →
      (init_database d).accomplishments = some rows) ∧
    (∀ rows, d.learning_analytics = some rows →
      (init_database d).learning_analytics = some rows) ∧
    (tablesExist d → init_database d = d) := by
  obtain ⟨sp, ls, lp, ac, la⟩ := d
  refine ⟨rfl, rfl, ?_, ?_, ?_, ?_, ?_, ?_, ?_⟩
  · exact ⟨rfl, rfl, rfl, rfl, rfl⟩
  · intro rows h
    have h' : sp = some rows := h
    subst h'
    rfl
  · intro rows h
    have h' : ls = some rows := h
    subst h'
    rfl
  · intro rows h
    have h' : lp = some rows := h
    subst h'
    rfl
  · intro rows h
    have h' : ac = some rows := h
    subst h'
    rfl
  · intro rows h
    have h' : la = some rows := h
    subst h'
    rfl
  · rintro ⟨h1, h2, h3, h4, h5⟩
    obtain ⟨x1, e1⟩ := Option.isSome_iff_exists.mp h1
    obtain ⟨x2, e2⟩ := Option.isSome_iff_exists.mp h2
    obtain ⟨x3, e3⟩ := Option.isSome_iff_exists.mp h3
    obtain ⟨x4, e4⟩ := Option.isSome_iff_exists.mp h4
    obtain ⟨x5, e5⟩ := Option.isSome_iff_exists.mp h5
    simp only at e1 e2 e3 e4 e5
    subst e1 e2 e3 e4 e5
    rfl

/-- A sample already-initialized on-disk database used as the witness
input for claim C7. -/
def sampleDiskDB : DB :=
  { student_profiles := some [], learning_sessions := some [],
    lesson_plans := some [], accomplishments := some [],
    learning_analytics := some [] }

/-- Witness for claim C7 at a concrete already-initialized database. -/
theorem claim_C7_witness :
    tablesExist sampleDiskDB ∧
    init_database sampleDiskDB = sampleDiskDB ∧
    sampleDiskDB.student_profiles = some [] ∧
    (init_database sampleDiskDB).student_profiles = some [] :=
  ⟨⟨rfl, rfl, rfl, rfl, rfl⟩,
   (claim_C7 sampleDiskDB).2.2.2.2.2.2.2.2 ⟨rfl, rfl, rfl, rfl, rfl⟩,
   rfl,
   (claim_C7 sampleDiskDB).2.2.2.1 [] rfl⟩

/-! ## Claim C4 -/

/-- The `name` column of the `student_profiles` table. -/
def profileNames (rows : List StudentProfileRow) : List String :=
  rows.map (fun r => r.name)

theorem name_not_mem_of_find_none {rows : List StudentProfileRow} {name : String}
    (h : rows.find? (fun r => r.name == name) = none) :
    name ∉ profileNames rows := by
  intro hmem
  simp only [profileNames, List.mem_map] at hmem
  obtain ⟨q, hq, hqname⟩ := hmem
  exact List.find?_eq_none.mp h q hq (by simp [hqname])

theorem any_name_false_of_find_none {rows : List StudentProfileRow} {name : String}
    (h : rows.find? (fun r => r.name == name) = none) :
    rows.any (fun q => q.name == name) = false := by
  rw [List.any_eq_false]
  intro q hq
  exact List.find?_eq_none.mp h q hq

/-- State effect of `get_student_profile` when no profile row matches:
the default row is appended to `student_profiles` and nothing else
changes. -/
theorem get_student_profile_state_of_none {db : InitDB} {name : String} {now : Nat}
    (h : db.student_profiles.find? (fun r => r.name == name) = none) :
    (get_student_profile db name now).2 =
      { db with student_profiles := db.student_profiles ++
          [{ id := db.student_profiles.length + 1, name := name, age := 4,
             interests := ["learning", "stories"], learning_style := "visual",
             current_level := "beginner", created_at := now, updated_at := now }] } := by
  have hany := any_name_false_of_find_none h
  simp [get_student_profile, h, sqliteInsertProfile, hany]

/-- When a profile row matches, `get_student_profile` leaves the state
unchanged and returns the stored row's fields. -/
theorem get_student_profile_of_some {db : InitDB} {name : String} {now : Nat}
    {p : StudentProfileRow}
    (h : db.student_profiles.find? (fun r => r.name == name) = some p) :
    (get_student_profile db name now).2 = db ∧
    (get_student_profile db name now).1.name = p.name ∧
    (get_student_profile db name now).1.age = p.age ∧
    (get_student_profile db name now).1.interests = p.interests ∧
    (get_student_profile db name now).1.learning_style = p.learning_style ∧
    (get_student_profile db name now).1.current_level = p.current_level := by
  simp [get_student_profile, h]

theorem profileNames_map_of_name_preserved {rows : List StudentProfileRow}
    {f : StudentProfileRow → StudentProfileRow}
    (hf : ∀ r, (f r).name = r.name) :
    profileNames (rows.map f) = profileNames rows := by
  simp only [profileNames, List.map_map]
  have h : ((fun r : StudentProfileRow => r.name) ∘ f) =
      fun r : StudentProfileRow => r.name := funext (fun r => hf r)
  rw [h]

/-- `update_student_profile` never changes the `name` column. -/
theorem update_student_profile_names (db : InitDB) (name : String)
    (u : ProfileUpdates) (now : Nat) :
    profileNames (update_student_profile db name u now).student_profiles =
      profileNames db.student_profiles := by
  by_cases hb : (u.age.isSome || u.interests.isSome || u.learning_style.isSome ||
      u.current_level.isSome)
  · simp only [update_student_profile, hb, if_true]
    apply profileNames_map_of_name_preserved
    intro r
    by_cases h : r.name = name <;> simp [h]
  · simp only [update_student_profile, if_neg hb]

/-- Claim C4: at most one `student_profiles` row exists per name, and
every operation preserves this: `get_student_profile` keeps the name
column duplicate-free (it inserts a default profile only when no row
with that name exists, and leaves the state unchanged otherwise),
`update_student_profile` never changes the name column, and a direct
attempt to insert a second profile with an already-present name fails
with the `UNIQUE` constraint error rather than creating a duplicate. -/
theorem claim_C4 (db : InitDB) (name : String) (now : Nat) (u : ProfileUpdates)
    (r : StudentProfileRow)
    (hinv : (profileNames db.student_profiles).Nodup) :
    (profileNames (get_student_profile db name now).2.student_profiles).Nodup ∧
    (profileNames (update_student_profile db name u now).student_profiles).Nodup ∧
    (r.name ∈ profileNames db.student_profiles →
      sqliteInsertProfile db.student_profiles r =
        Except.error "UNIQUE constraint failed: student_profiles.name") ∧
    (∀ p, db.student_profiles.find? (fun q => q.name == name) = some p →
      (get_student_profile db name now).2 = db) := by
  refine ⟨?_, ?_, ?_, ?_⟩
  · cases h : db.student_profiles.find? (fun r => r.name == name) with
    | none =>
      rw [get_student_profile_state_of_none h]
      have hnm := name_not_mem_of_find_none h
      show (profileNames (db.student_profiles ++ [_])).Nodup
      simp only [profileNames, List.map_append, List.map_cons, List.map_nil]
      refine List.nodup_append.mpr ⟨hinv, List.nodup_singleton _, ?_⟩
      intro a ha hb
      rw [List.mem_singleton] at hb
      subst hb
      exact hnm ha
    | some p =>
      rw [(get_student_profile_of_some h).1]
      exact hinv
  · rw [update_student_profile_names]
    exact hinv
  · intro hmem
    simp only [profileNames, List.mem_map] at hmem
    obtain ⟨q, hq, hqname⟩ := hmem
    have hany : db.student_profiles.any (fun q => q.name == r.name) = true :=
      List.any_eq_true.mpr ⟨q, hq, by simp [hqname]⟩
    simp [sqliteInsertProfile, hany]
  · intro p hp
    exact (get_student_profile_of_some hp).1

/-- Sample row for the C4 witness. -/
def sampleRowC4 : StudentProfileRow :=
  { id := 1, name := "Emma", age := 4, interests := ["animals"],
    learning_style := "visual", current_level := "beginner",
    created_at := 0, updated_at := 0 }

/-- Sample database state for the C4 witness. -/
def sampleDBC4 : InitDB := { emptyInitDB with student_profiles := [sampleRowC4] }

/-- Empty updates dictionary for the C4 witness. -/
def noUpdatesC4 : ProfileUpdates :=
  { age := none, interests := none, learning_style := none,
    current_level := none, preferred_teaching_style := none,
    effective_strategies := none, challenging_areas := none,
    motivation_triggers := none }

/-- Witness for claim C4 at a concrete one-row database, with the
duplicate-insert attempt reusing the stored name `"Emma"`. -/
theorem claim_C4_witness :
    (profileNames sampleDBC4.student_profiles).Nodup ∧
    ((profileNames (get_student_profile sampleDBC4 "Emma" 1).2.student_profiles).Nodup ∧
     (profileNames (update_student_profile sampleDBC4 "Emma" noUpdatesC4 1).student_profiles).Nodup ∧
     (sampleRowC4.name ∈ profileNames sampleDBC4.student_profiles →
       sqliteInsertProfile sampleDBC4.student_profiles sampleRowC4 =
         Except.error "UNIQUE constraint failed: student_profiles.name") ∧
     (∀ p, sampleDBC4.student_profiles.find? (fun q => q.name == "Emma") = some p →
       (get_student_profile sampleDBC4 "Emma" 1).2 = sampleDBC4)) :=
  ⟨by decide, claim_C4 sampleDBC4 "Emma" 1 noUpdatesC4 sampleRowC4 (by decide)⟩

/-! ## Claim C8 -/

theorem find?_append_of_none {α : Type} {p : α → Bool} {l1 l2 : List α}
    (h : l1.find? p = none) : (l1 ++ l2).find? p = l2.find? p := by
  induction l1 with
  | nil => simp
  | cons a l ih =>
    cases hpa : p a with
    | true =>
      rw [List.find?_cons_of_pos _ hpa] at h
      exact absurd h (by simp)
    | false =>
      have hneg : ¬ p a = true := by simp [hpa]
      rw [List.find?_cons_of_neg _ hneg] at h
      rw [List.cons_append, List.find?_cons_of_neg _ hneg]
      exact ih h

/-- After `get_student_profile` inserted the default row for a missing
name, a lookup of that name finds exactly the inserted row. -/
theorem find_after_insert {db : InitDB} {name : String} {now : Nat}
    (h : db.student_profiles.find? (fun r => r.name == name) = none) :
    ((get_student_profile db name now).2.student_profiles).find?
        (fun r => r.name == name) =
      some { id := db.student_profiles.length + 1, name := name, age := 4,
             interests := ["learning", "stories"], learning_style := "visual",
             current_level := "beginner", created_at := now, updated_at := now } := by
  rw [get_student_profile_state_of_none h]
  show (db.student_profiles ++
      [({ id := db.student_profiles.length + 1, name := name, age := 4,
          interests := ["learning", "stories"], learning_style := "visual",
          current_level := "beginner", created_at := now,
          updated_at := now } : StudentProfileRow)]).find?
      (fun r => r.name == name) = _
  rw [find?_append_of_none h]
  rw [List.find?_cons_of_pos _ (by simp)]

/-- Claim C8: calling `get_student_profile` with a name that has no
profile row is not a pure read: it appends a default profile row
(age 4, interests `['learning', 'stories']`, learning style `'visual'`,
level `'beginner'`) to `student_profiles`, and a second call with the
same name finds that row, leaves the state unchanged, and returns the
stored profile. -/
theorem claim_C8 (db : InitDB) (name : String) (now now2 : Nat)
    (h : db.student_profiles.find? (fun r => r.name == name) = none) :
    ∃ row : StudentProfileRow,
      (get_student_profile db name now).2.student_profiles =
        db.student_profiles ++ [row] ∧
      row.name = name ∧ row.age = 4 ∧
      row.interests = ["learning", "stories"] ∧
      row.learning_style = "visual" ∧ row.current_level = "beginner" ∧
      (get_student_profile (get_student_profile db name now).2 name now2).2 =
        (get_student_profile db name now).2 ∧
      (get_student_profile (get_student_profile db name now).2 name now2).1.name = name ∧
      (get_student_profile (get_student_profile db name now).2 name now2).1.age = 4 ∧
      (get_student_profile (get_student_profile db name now).2 name now2).1.interests =
        ["learning", "stories"] ∧
      (get_student_profile (get_student_profile db name now).2 name now2).1.learning_style =
        "visual" ∧
      (get_student_profile (get_student_profile db name now).2 name now2).1.current_level =
        "beginner" := by
  have hstate := @get_student_profile_state_of_none db name now h
  refine ⟨{ id := db.student_profiles.length + 1, name := name, age := 4,
            interests := ["learning", "stories"], learning_style := "visual",
            current_level := "beginner", created_at := now, updated_at := now },
          ?_, rfl, rfl, rfl, rfl, rfl, ?_, ?_, ?_, ?_, ?_, ?_⟩
  · rw [hstate]
  · exact (get_student_profile_of_some (find_after_insert h)).1
  · exact (get_student_profile_of_some (find_after_insert h)).2.1
  · exact (get_student_profile_of_some (find_after_insert h)).2.2.1
  · exact (get_student_profile_of_some (find_after_insert h)).2.2.2.1
  · exact (get_student_profile_of_some (find_after_insert h)).2.2.2.2.1
  · exact (get_student_profile_of_some (find_after_insert h)).2.2.2.2.2

/-- Witness for claim C8 on a fresh database with the absent name
`"Zara"`. -/
theorem claim_C8_witness :
    emptyInitDB.student_profiles.find? (fun r => r.name == "Zara") = none ∧
    (∃ row : StudentProfileRow,
      (get_student_profile emptyInitDB "Zara" 0).2.student_profiles =
        emptyInitDB.student_profiles ++ [row] ∧
      row.name = "Zara" ∧ row.age = 4 ∧
      row.interests = ["learning", "stories"] ∧
      row.learning_style = "visual" ∧ row.current_level = "beginner" ∧
      (get_student_profile (get_student_profile emptyInitDB "Zara" 0).2 "Zara" 1).2 =
        (get_student_profile emptyInitDB "Zara" 0).2 ∧
      (get_student_profile (get_student_profile emptyInitDB "Zara" 0).2 "Zara" 1).1.name =
        "Zara" ∧
      (get_student_profile (get_student_profile emptyInitDB "Zara" 0).2 "Zara" 1).1.age = 4 ∧
      (get_student_profile (get_student_profile emptyInitDB "Zara" 0).2 "Zara" 1).1.interests =
        ["learning", "stories"] ∧
      (get_student_profile (get_student_profile emptyInitDB "Zara" 0).2 "Zara" 1).1.learning_style =
        "visual" ∧
      (get_student_profile (get_student_profile emptyInitDB "Zara" 0).2 "Zara" 1).1.current_level =
        "beginner") :=
  ⟨rfl, claim_C8 emptyInitDB "Zara" 0 1 rfl⟩

/-! ## Claim C10 -/

theorem length_map_take_le {α β : Type} (f : α → β) (l : List α) (n : Nat) :
    ((l.take n).map f).length ≤ n := by
  rw [List.length_map]
  exact List.length_take_le _ _

theorem pairwise_map_take_sortDescBy {α β : Type} (key : α → Nat) (f : α → β)
    (key2 : β → Nat) (hf : ∀ a, key2 (f a) = key a) (l : List α) (n : Nat) :
    (((sortDescBy key l).take n).map f).Pairwise
      (fun a b => key2 b ≤ key2 a) := by
  refine List.Pairwise.map (R := fun a b => key b ≤ key a) f ?_ ?_
  · intro a b hab
    rw [hf a, hf b]
    exact hab
  · exact List.Pairwise.sublist (List.take_sublist _ _) (pairwise_sortDescBy key l)

/-- Claim C10: for every student and database state,
`get_parent_dashboard` returns at most 10 recent sessions ordered
most-recent-first by session date, and the embedded profile contains at
most 5 recent accomplishments ordered most-recent-first by date
achieved, regardless of how many records are stored. -/
theorem claim_C10 (db : InitDB) (student_name : String) (now : Nat) :
    (get_parent_dashboard db student_name now).1.recent_sessions.length ≤ 10 ∧
    (get_parent_dashboard db student_name now).1.recent_sessions.Pairwise
      (fun a b => b.date ≤ a.date) ∧
    (get_parent_dashboard db student_name now).1.profile.recent_accomplishments.length ≤ 5 ∧
    (get_parent_dashboard db student_name now).1.profile.recent_accomplishments.Pairwise
      (fun a b => b.date ≤ a.date) := by
  refine ⟨?_, ?_, ?_, ?_⟩
  · exact length_map_take_le _ _ 10
  · exact pairwise_map_take_sortDescBy
      (fun s : LearningSessionRow => s.session_date) _
      (fun e : SessionEntry => e.date) (fun a => rfl) _ 10
  · exact length_map_take_le _ _ 5
  · exact pairwise_map_take_sortDescBy
      (fun a : AccomplishmentRow => a.date_achieved) _
      (fun e : AccEntry => e.date) (fun a => rfl) _ 5
